import Mathlib

/-!
Verification development for the RouterOS client / connection-manager subsystem
of this repository (`src/src/utils/mikrotik-api.ts`).

The embedding models, directly from the source:

* `RouterOSAPI` (the WebSocket session): its mutable fields `ws`, `connected`,
  `tagCounter` and `callbacks` become `SessionState`; the reachable transitions
  of `sendCommand`, `handleMessage`, the per-command timeout callback and
  `disconnect` become a step function over explicit events, emitting an action
  log (resolutions, rejections, tag retirements, discards).  Tags in the source
  are the strings `"tag1"`, `"tag2"`, ... produced from the strictly increasing
  `tagCounter`; since `n ↦ "tag" ++ toString n` is injective we key the
  callback map by the counter value itself.  A reply without a tag is looked up
  under the key `''` (`response.tag || ''`), which is never an allocated key,
  so it is modeled as a lookup miss.
* `MikroTikAPIManager.connect` becomes a pure function of the outcomes of the
  two transport attempts (the WebSocket connect promise, the HTTP connect) and
  of the two possible `getSystemResource` probes, returning the produced result
  together with whether the HTTP fallback was attempted.
* `MikroTikAPIManager`'s `currentApi` / `isConnected` become a small state
  machine over the manager-level transitions.
-/

namespace MikrotikApi

/-- The `type` field of `RouterOSResponse` (mikrotik-api.ts lines 7-12). -/
inductive RKind
  | data
  | done
  | trap
  | fatal
  deriving DecidableEq, Repr

/-- JSON-ish payload values carried in the `data` field of a reply: a scalar
string or an array (all the distinctions the claims need). -/
inductive Val
  | s (x : String)
  | arr (elems : List String)
  deriving DecidableEq, Repr

/-- `RouterOSResponse` (lines 7-12): `{type, tag?, data?, message?}`. -/
structure Reply where
  type : RKind
  tag : Option Nat
  data : Option Val
  message : Option String
  deriving DecidableEq, Repr

/-- How a `sendCommand` promise settles: `resolve(response)` on a done reply,
or a rejection carrying the error message. -/
inductive Outcome
  | resolved (r : Reply)
  | rejected (msg : String)
  deriving DecidableEq, Repr

/-- The mutable fields of one `RouterOSAPI` instance (lines 14-22): whether
`this.ws` is non-null, the `connected` flag, the `tagCounter`, and the keys of
the `callbacks` map (every registered callback has the same shape, fixed by
`sendCommand`, so the keys carry all the state). -/
structure SessionState where
  hasWs : Bool
  connected : Bool
  tagCounter : Nat
  callbacks : List Nat
  deriving DecidableEq, Repr

/-- Field initializers of `RouterOSAPI` (lines 15-22). -/
def init : SessionState :=
  { hasWs := false, connected := false, tagCounter := 0, callbacks := [] }

/-- Observable actions a transition performs on the waiting callers. -/
inductive Act
  /-- A command's promise settles (resolution or rejection). -/
  | settle (t : Nat) (o : Outcome)
  /-- The tag's callback is deleted by `handleMessage` on a terminal reply. -/
  | retireByReply (t : Nat)
  /-- The tag's callback is deleted by the 30s timeout in `sendCommand`. -/
  | retireByTimeout (t : Nat)
  /-- A reply whose tag matches no registered callback is dropped. -/
  | discard (tag : Option Nat)
  /-- `disconnect()` runs `this.callbacks.clear()`: the listed tags are
  dropped without their promises ever settling. -/
  | cleared (tags : List Nat)
  /-- `sendCommand` rejected up front (`!this.ws || !this.connected`),
  before any tag was allocated. -/
  | submitRejected
  deriving DecidableEq, Repr

/-- Events driving one session: a successful login handshake (line 49 with
`loginResult = true`), a `sendCommand` call, an inbound message, a
per-command timeout timer firing, and `disconnect()`. -/
inductive Ev
  | loginOk
  | submit
  | msg (r : Reply)
  | timeoutFire (t : Nat)
  | disconnectEv
  deriving DecidableEq, Repr

/-- `sendCommand` (lines 113-146), the part that runs synchronously at call
time: reject up front when there is no socket or `connected` is false (no tag
allocated); otherwise allocate the fresh tag `++this.tagCounter` and register
its callback. -/
def sendCommand (s : SessionState) : SessionState × List Act :=
  if s.hasWs && s.connected then
    ({ s with tagCounter := s.tagCounter + 1,
              callbacks := s.callbacks ++ [s.tagCounter + 1] }, [])
  else
    (s, [Act.submitRejected])

/-- `handleMessage` (lines 98-111) combined with the callback body registered
by `sendCommand` (lines 128-134): look the reply's tag up; if found, the
callback resolves on `done`, rejects with `response.message || 'Command
failed'` on `trap`/`fatal`, and does nothing on `data`; the callback entry is
deleted exactly on the three terminal kinds.  A missing or unknown tag is
dropped. -/
def handleMessage (s : SessionState) (r : Reply) : SessionState × List Act :=
  match r.tag with
  | none => (s, [Act.discard none])
  | some t =>
      if t ∈ s.callbacks then
        match r.type with
        | RKind.data => (s, [])
        | RKind.done =>
            ({ s with callbacks := s.callbacks.erase t },
             [Act.settle t (Outcome.resolved r), Act.retireByReply t])
        | RKind.trap =>
            ({ s with callbacks := s.callbacks.erase t },
             [Act.settle t (Outcome.rejected (r.message.getD "Command failed")),
              Act.retireByReply t])
        | RKind.fatal =>
            ({ s with callbacks := s.callbacks.erase t },
             [Act.settle t (Outcome.rejected (r.message.getD "Command failed")),
              Act.retireByReply t])
      else (s, [Act.discard (some t)])

/-- The 30-second timer registered by `sendCommand` (lines 139-144): when it
fires, if the tag is still pending, delete it and reject with
`'Command timeout'`; otherwise do nothing. -/
def commandTimeout (s : SessionState) (t : Nat) : SessionState × List Act :=
  if t ∈ s.callbacks then
    ({ s with callbacks := s.callbacks.erase t },
     [Act.settle t (Outcome.rejected "Command timeout"), Act.retireByTimeout t])
  else (s, [])

/-- `disconnect` (lines 212-219): close and null the socket, clear the
`connected` flag, and `callbacks.clear()` — note the pending promises are not
settled. -/
def disconnect (s : SessionState) : SessionState × List Act :=
  ({ s with hasWs := false, connected := false, callbacks := [] },
   [Act.cleared s.callbacks])

/-- One transition of the session. -/
def step (s : SessionState) : Ev → SessionState × List Act
  | Ev.loginOk => ({ s with hasWs := true, connected := true }, [])
  | Ev.submit => sendCommand s
  | Ev.msg r => handleMessage s r
  | Ev.timeoutFire t => commandTimeout s t
  | Ev.disconnectEv => disconnect s

/-- Run a list of events from a state, concatenating the emitted actions. -/
def runS (s : SessionState) : List Ev → SessionState × List Act
  | [] => (s, [])
  | e :: es =>
      ((runS (step s e).1 es).1, (step s e).2 ++ (runS (step s e).1 es).2)

/-- Does this action retire tag `t` (delete it from the callback map by a
terminal reply or by the timeout)? -/
def isRetire (t : Nat) : Act → Bool
  | Act.retireByReply u => t == u
  | Act.retireByTimeout u => t == u
  | _ => false

/-- How many actions of the log retire tag `t`. -/
def retireCount (as : List Act) (t : Nat) : Nat :=
  as.countP (isRetire t)

/-- The settlements (resolutions/rejections) the log records for tag `t`. -/
def settlesOf (as : List Act) (t : Nat) : List Outcome :=
  as.filterMap fun a =>
    match a with
    | Act.settle u o => if u = t then some o else none
    | _ => none

/-- The key of a reply is unknown: no tag at all (looked up as `''`), or a tag
with no registered callback. -/
def tagUnknown (s : SessionState) : Option Nat → Prop
  | none => True
  | some t => t ∉ s.callbacks

instance tagUnknownDec (s : SessionState) : (o : Option Nat) → Decidable (tagUnknown s o)
  | none => Decidable.isTrue trivial
  | some t => inferInstanceAs (Decidable (t ∉ s.callbacks))

/-- `getInterfaces` (lines 153-156): wrap the done reply's `data` field —
`Array.isArray(response.data) ? response.data : [response.data]`. -/
def interfacesFromReply (r : Reply) : List (Option Val) :=
  match r.data with
  | some (Val.arr l) => l.map fun x => some (Val.s x)
  | d => [d]

/-- `Except` success test (`try`/`await` succeeding vs throwing). -/
def exceptOk {α : Type} : Except String α → Bool
  | Except.ok _ => true
  | Except.error _ => false

/-- How the `wsApi.connect(...)` promise can settle, seen from
`MikroTikAPIManager.connect` (lines 39-74): resolve with a boolean
(`resolve(loginResult)`), or reject (socket error / the 10-second
`'Connection timeout'`). -/
inductive WsOutcome
  | resolvedB (b : Bool)
  | rejectedE (e : String)
  deriving DecidableEq, Repr

/-- How `httpApi.connect(...)` can settle (lines 235-258): it returns `true`
when `response.ok`, and throws in every other case — it never returns
`false`. -/
inductive HttpOutcome
  | resolvedOk
  | rejectedE (e : String)
  deriving DecidableEq, Repr

/-- What `MikroTikAPIManager.connect` produces for its caller: a success
record `{success: true, method, systemInfo}`, a failure record
`{success: false, error}`, or an uncaught exception (the promise rejects). -/
inductive MgrResult
  | ok (method : String) (systemInfo : Val)
  | err (e : String)
  | crash (e : String)
  deriving DecidableEq, Repr

/-- Result of a `connect` call plus whether the HTTP fallback was attempted
(whether control reached the second `try` block of lines 366-376). -/
structure MgrConnectTrace where
  result : MgrResult
  httpAttempted : Bool
  deriving DecidableEq, Repr

/-- The HTTP half of `MikroTikAPIManager.connect` (lines 366-378).  When the
`catch (httpError)` block runs, its return statement interpolates `wsError` —
but `wsError` is bound only inside the earlier `catch (wsError)` block (line
361), so it is not in scope here: TypeScript rejects the file (TS2304), and
with a type-stripping bundler the template evaluation throws a
`ReferenceError` at run time, so the `connect` promise rejects instead of
returning the intended aggregate failure record.  The final
`{success: false, error: 'No API method available'}` (line 378) is
unreachable, since `httpApi.connect` never resolves `false`. -/
def httpPhase (http : HttpOutcome) (httpProbe : Except String Val) : MgrConnectTrace :=
  match http with
  | HttpOutcome.resolvedOk =>
      match httpProbe with
      | Except.ok info => ⟨MgrResult.ok "HTTP REST API" info, true⟩
      | Except.error _ => ⟨MgrResult.crash "ReferenceError: wsError is not defined", true⟩
  | HttpOutcome.rejectedE _ =>
      ⟨MgrResult.crash "ReferenceError: wsError is not defined", true⟩

/-- `MikroTikAPIManager.connect` (lines 350-379) as a function of the attempt
outcomes: try the WebSocket API first; if its connect promise resolves `true`
and the `getSystemResource` probe succeeds, return
`{success: true, method: 'WebSocket API', systemInfo}` without touching the
HTTP method; on a resolved `false`, a rejected connect, or a failed probe,
fall through to the HTTP phase. -/
def managerConnect (ws : WsOutcome) (wsProbe : Except String Val)
    (http : HttpOutcome) (httpProbe : Except String Val) : MgrConnectTrace :=
  match ws with
  | WsOutcome.resolvedB true =>
      match wsProbe with
      | Except.ok info => ⟨MgrResult.ok "WebSocket API" info, false⟩
      | Except.error _ => httpPhase http httpProbe
  | WsOutcome.resolvedB false => httpPhase http httpProbe
  | WsOutcome.rejectedE _ => httpPhase http httpProbe

/-- How the WebSocket transport open can behave. -/
inductive OpenResult
  | opened
  | openError
  | openHang
  deriving DecidableEq, Repr

/-- `RouterOSAPI.connect` + `login` (lines 26-96) over the transport's open
behavior.  After `new WebSocket(...)` the instance has `ws` set and
`connected` still `false`.  On `onopen`, `login()` calls `sendCommand`, whose
guard `!this.ws || !this.connected` rejects at once because `connected` is
only assigned after `login` returns — so `login` catches the rejection and
returns `false`, and the connect promise resolves `false` whatever reply
(`loginReply`) the router would have sent to the login command.  On `onerror`
the promise rejects `'WebSocket connection failed'`; if the socket neither
opens nor errors, the 10-second timer rejects `'Connection timeout'`. -/
def wsApiConnect (o : OpenResult) (loginReply : RKind) : WsOutcome :=
  match o, loginReply with
  | OpenResult.opened, _ => WsOutcome.resolvedB false
  | OpenResult.openError, _ => WsOutcome.rejectedE "WebSocket connection failed"
  | OpenResult.openHang, _ => WsOutcome.rejectedE "Connection timeout"

/-- The `currentApi` discriminator of `MikroTikAPIManager` (line 336). -/
inductive ApiSel
  | wsSel
  | httpSel
  deriving DecidableEq, Repr

/-- Manager state: `currentApi`, the `connected` flag of the owned
`RouterOSAPI` instance, and (spec-side ghost history, never read by the code
functions) whether an HTTP connect has succeeded — the sense in which the
stateless variant's session counts as authenticated. -/
structure MgrState where
  currentApi : Option ApiSel
  wsConnected : Bool
  httpAuthOk : Bool
  deriving DecidableEq, Repr

/-- Manager-level transitions, from `MikroTikAPIManager.connect` (350-379),
`RouterOSAPI`'s `onclose` handler (64-66) and `MikroTikAPIManager.disconnect`
(421-426). -/
inductive MEv
  /-- `wsApi.connect` resolved `true`: `wsApi.connected := true` (line 49) and
  `currentApi := 'ws'` (line 357). -/
  | mgrWsSuccess
  /-- The ws attempt resolved `false` or rejected: `wsApi.connected` is
  `false` and `currentApi` is left unchanged. -/
  | mgrWsFail
  /-- `httpApi.connect` returned `true`: `currentApi := 'http'` (line 369). -/
  | mgrHttpSuccess
  /-- The WebSocket's `onclose` fired: `wsApi.connected := false`. -/
  | wsSocketClosed
  /-- `MikroTikAPIManager.disconnect`: `wsApi.disconnect()` only when the
  current method is 'ws'; then `currentApi := null`. -/
  | mgrDisconnect
  deriving DecidableEq, Repr

def stepM (s : MgrState) : MEv → MgrState
  | MEv.mgrWsSuccess => { s with wsConnected := true, currentApi := some ApiSel.wsSel }
  | MEv.mgrWsFail => { s with wsConnected := false }
  | MEv.mgrHttpSuccess => { s with currentApi := some ApiSel.httpSel, httpAuthOk := true }
  | MEv.wsSocketClosed => { s with wsConnected := false }
  | MEv.mgrDisconnect =>
      match s.currentApi with
      | some ApiSel.wsSel => { s with currentApi := none, wsConnected := false }
      | _ => { s with currentApi := none }

/-- Field initializers of `MikroTikAPIManager` (lines 334-343). -/
def initM : MgrState := { currentApi := none, wsConnected := false, httpAuthOk := false }

def runM (es : List MEv) : MgrState := es.foldl stepM initM

/-- `MikroTikAPIManager.isConnected` (lines 415-419): delegate to
`wsApi.isConnected()` (which returns the `connected` flag, lines 221-223) for
'ws', return `true` for 'http' ("HTTP is stateless"), `false` when no method
is selected. -/
def isConnected (s : MgrState) : Bool :=
  match s.currentApi with
  | some ApiSel.wsSel => s.wsConnected
  | some ApiSel.httpSel => true
  | none => false

/-- Modelled from the spec's words for the refinement claim about
`isConnected`: "the active Session's authentication state" — the ws session
is authenticated exactly when its `connected` flag is set, the stateless HTTP
session exactly when its connect (Basic-auth probe) succeeded, and with no
active method there is no authenticated session. -/
def specActiveSessionAuth (s : MgrState) : Bool :=
  match s.currentApi with
  | some ApiSel.wsSel => s.wsConnected
  | some ApiSel.httpSel => s.httpAuthOk
  | none => false

/-- `RouterOSCommand` (lines 2-5). -/
structure RouterOSCommand where
  command : String
  arguments : List (String × String)
  deriving DecidableEq, Repr

/-- The command built by `addHotspotUser` (lines 170-177). -/
def addHotspotUserCmd (username password profile : String) : RouterOSCommand :=
  ⟨"/ip/hotspot/user/add",
   [("name", username), ("password", password), ("profile", profile)]⟩

/-- The command built by `removeHotspotUser` (lines 186-191). -/
def removeHotspotUserCmd (id : String) : RouterOSCommand :=
  ⟨"/ip/hotspot/user/remove", [("numbers", id)]⟩

/-- The command built by `disconnectActiveUser` (lines 200-205). -/
def disconnectActiveUserCmd (id : String) : RouterOSCommand :=
  ⟨"/ip/hotspot/active/remove", [("numbers", id)]⟩

/-- `addHotspotUser` (lines 168-182) over the behavior of `sendCommand`
(abstracted as `send`, which either resolves with a reply or rejects with an
error message — covering done, trap, fatal, timeout and the not-connected
rejection): `try { await ...; return true } catch { return false }`. -/
def addHotspotUser (send : RouterOSCommand → Except String Reply)
    (username password profile : String) : Bool :=
  match send (addHotspotUserCmd username password profile) with
  | Except.ok _ => true
  | Except.error _ => false

/-- `removeHotspotUser` (lines 184-196), same shape. -/
def removeHotspotUser (send : RouterOSCommand → Except String Reply)
    (id : String) : Bool :=
  match send (removeHotspotUserCmd id) with
  | Except.ok _ => true
  | Except.error _ => false

/-- `disconnectActiveUser` (lines 198-210), same shape. -/
def disconnectActiveUser (send : RouterOSCommand → Except String Reply)
    (id : String) : Bool :=
  match send (disconnectActiveUserCmd id) with
  | Except.ok _ => true
  | Except.error _ => false

/-- The dispatcher invariant carried along every disconnect-free run: pending
tags are positive, at most `tagCounter`, and distinct; every tag is retired at
most once, a still-pending tag never, a never-allocated tag never; and every
allocated tag is still pending or already retired exactly once. -/
structure InvFull (s : SessionState) (as : List Act) : Prop where
  pend_le : ∀ t ∈ s.callbacks, 1 ≤ t ∧ t ≤ s.tagCounter
  nodup : s.callbacks.Nodup
  retire_le : ∀ t, retireCount as t ≤ 1
  pend_zero : ∀ t ∈ s.callbacks, retireCount as t = 0
  hi_zero : ∀ t, s.tagCounter < t → retireCount as t = 0
  alloc : ∀ t, 1 ≤ t → t ≤ s.tagCounter → t ∈ s.callbacks ∨ retireCount as t = 1

/-- A concrete trace: login, one command (tag 1), a `data` reply carrying
payload "A", then a `done` reply carrying payload "B". -/
def tr0 : List Ev :=
  [Ev.loginOk, Ev.submit,
   Ev.msg ⟨RKind.data, some 1, some (Val.s "A"), none⟩,
   Ev.msg ⟨RKind.done, some 1, some (Val.s "B"), none⟩]

theorem retireCount_append (a b : List Act) (t : Nat) :
    retireCount (a ++ b) t = retireCount a t + retireCount b t :=
  List.countP_append _ _ _

theorem settlesOf_append (a b : List Act) (t : Nat) :
    settlesOf (a ++ b) t = settlesOf a t ++ settlesOf b t :=
  List.filterMap_append _ _ _

theorem retireCount_settle_retire (t u : Nat) (o : Outcome) (k : Act)
    (hk : k = Act.retireByReply t ∨ k = Act.retireByTimeout t) :
    retireCount [Act.settle t o, k] u = if u = t then 1 else 0 := by
  rcases hk with rfl | rfl <;> by_cases h : u = t <;>
    simp [retireCount, List.countP_cons, isRetire, h]

/-- Extending the action log with actions that retire nothing preserves the
invariant over an unchanged state. -/
theorem inv_extend_same (s : SessionState) (as a2 : List Act)
    (hz : ∀ u, retireCount a2 u = 0) (h : InvFull s as) :
    InvFull s (as ++ a2) := by
  have hcnt : ∀ u, retireCount (as ++ a2) u = retireCount as u := by
    intro u
    rw [retireCount_append, hz u, Nat.add_zero]
  exact ⟨h.pend_le, h.nodup,
    fun u => by rw [hcnt u]; exact h.retire_le u,
    fun u hu => by rw [hcnt u]; exact h.pend_zero u hu,
    fun u hu => by rw [hcnt u]; exact h.hi_zero u hu,
    fun u h1 h2 => by
      rcases h.alloc u h1 h2 with hm | hr
      · exact Or.inl hm
      · exact Or.inr (by rw [hcnt u]; exact hr)⟩

/-- Retiring a pending tag (terminal reply or timeout) preserves the
invariant. -/
theorem inv_retire (s : SessionState) (as : List Act) (t : Nat) (o : Outcome) (k : Act)
    (hk : k = Act.retireByReply t ∨ k = Act.retireByTimeout t)
    (ht : t ∈ s.callbacks) (h : InvFull s as) :
    InvFull { s with callbacks := s.callbacks.erase t } (as ++ [Act.settle t o, k]) := by
  have hcount : ∀ u, retireCount (as ++ [Act.settle t o, k]) u
      = retireCount as u + if u = t then 1 else 0 := by
    intro u
    rw [retireCount_append, retireCount_settle_retire t u o k hk]
  have htle := h.pend_le t ht
  refine ⟨?_, h.nodup.erase t, ?_, ?_, ?_, ?_⟩
  · intro u hu
    exact h.pend_le u (List.mem_of_mem_erase hu)
  · intro u
    rw [hcount u]
    by_cases hut : u = t
    · subst hut
      rw [h.pend_zero u ht]
      simp
    · simpa [hut] using h.retire_le u
  · intro u hu
    have hut : u ≠ t := by
      intro hh
      subst hh
      exact h.nodup.not_mem_erase hu
    rw [hcount u]
    simp [hut, h.pend_zero u (List.mem_of_mem_erase hu)]
  · intro u hu
    have hut : u ≠ t := by
      intro hh
      subst hh
      exact absurd htle.2 (Nat.not_le.mpr hu)
    rw [hcount u]
    simp [hut, h.hi_zero u hu]
  · intro u h1 h2
    by_cases hut : u = t
    · subst hut
      refine Or.inr ?_
      rw [hcount u, h.pend_zero u ht]
      simp
    · rcases h.alloc u h1 h2 with hm | hr
      · exact Or.inl ((List.mem_erase_of_ne hut).mpr hm)
      · refine Or.inr ?_
        rw [hcount u]
        simp [hut, hr]

/-- Every disconnect-free transition preserves the dispatcher invariant. -/
theorem inv_step (s : SessionState) (as : List Act) (e : Ev)
    (hne : e ≠ Ev.disconnectEv) (h : InvFull s as) :
    InvFull (step s e).1 (as ++ (step s e).2) := by
  cases e with
  | loginOk =>
      rw [show (step s Ev.loginOk).2 = [] from rfl, List.append_nil]
      exact ⟨h.pend_le, h.nodup, h.retire_le, h.pend_zero, h.hi_zero, h.alloc⟩
  | submit =>
      by_cases hc : (s.hasWs && s.connected) = true
      · have hstep : step s Ev.submit
            = ({ s with tagCounter := s.tagCounter + 1,
                        callbacks := s.callbacks ++ [s.tagCounter + 1] }, []) := by
          simp [step, sendCommand, hc]
        rw [hstep]
        dsimp only
        rw [List.append_nil]
        refine ⟨?_, ?_, h.retire_le, ?_, ?_, ?_⟩
        · intro u hu
          rcases List.mem_append.mp hu with hm | hm
          · have hle := h.pend_le u hm
            exact ⟨hle.1, Nat.le_succ_of_le hle.2⟩
          · have heq : u = s.tagCounter + 1 := by simpa using hm
            subst heq
            exact ⟨Nat.succ_le_succ (Nat.zero_le _), Nat.le_refl _⟩
        · refine List.nodup_append.mpr ⟨h.nodup, List.nodup_singleton _, ?_⟩
          intro u hu hu2
          have hle := h.pend_le u hu
          have heq : u = s.tagCounter + 1 := by simpa using hu2
          omega
        · intro u hu
          rcases List.mem_append.mp hu with hm | hm
          · exact h.pend_zero u hm
          · have heq : u = s.tagCounter + 1 := by simpa using hm
            subst heq
            exact h.hi_zero _ (Nat.lt_succ_self _)
        · intro u hu
          exact h.hi_zero u (Nat.lt_of_succ_lt hu)
        · intro u h1 h2
          rcases Nat.lt_or_ge u (s.tagCounter + 1) with hlt | hge
          · have h2b : u ≤ s.tagCounter := Nat.lt_succ_iff.mp hlt
            rcases h.alloc u h1 h2b with hm | hr
            · exact Or.inl (List.mem_append.mpr (Or.inl hm))
            · exact Or.inr hr
          · have heq : u = s.tagCounter + 1 := Nat.le_antisymm h2 hge
            subst heq
            exact Or.inl (List.mem_append.mpr (Or.inr (List.mem_singleton.mpr rfl)))
      · have hstep : step s Ev.submit = (s, [Act.submitRejected]) := by
          simp [step, sendCommand, hc]
        rw [hstep]
        dsimp only
        exact inv_extend_same s as [Act.submitRejected] (fun u => rfl) h
  | msg r =>
      rcases r with ⟨ty, tg, d, m⟩
      cases tg with
      | none =>
          have hstep : step s (Ev.msg ⟨ty, none, d, m⟩) = (s, [Act.discard none]) := rfl
          rw [hstep]
          dsimp only
          exact inv_extend_same s as [Act.discard none] (fun u => rfl) h
      | some t =>
          by_cases hmem : t ∈ s.callbacks
          · cases ty with
            | data =>
                have hstep : step s (Ev.msg ⟨RKind.data, some t, d, m⟩) = (s, []) := by
                  simp [step, handleMessage, hmem]
                rw [hstep]
                dsimp only
                rw [List.append_nil]
                exact h
            | done =>
                have hstep : step s (Ev.msg ⟨RKind.done, some t, d, m⟩)
                    = ({ s with callbacks := s.callbacks.erase t },
                       [Act.settle t (Outcome.resolved ⟨RKind.done, some t, d, m⟩),
                        Act.retireByReply t]) := by
                  simp [step, handleMessage, hmem]
                rw [hstep]
                dsimp only
                exact inv_retire s as t _ _ (Or.inl rfl) hmem h
            | trap =>
                have hstep : step s (Ev.msg ⟨RKind.trap, some t, d, m⟩)
                    = ({ s with callbacks := s.callbacks.erase t },
                       [Act.settle t (Outcome.rejected (m.getD "Command failed")),
                        Act.retireByReply t]) := by
                  simp [step, handleMessage, hmem]
                rw [hstep]
                dsimp only
                exact inv_retire s as t _ _ (Or.inl rfl) hmem h
            | fatal =>
                have hstep : step s (Ev.msg ⟨RKind.fatal, some t, d, m⟩)
                    = ({ s with callbacks := s.callbacks.erase t },
                       [Act.settle t (Outcome.rejected (m.getD "Command failed")),
                        Act.retireByReply t]) := by
                  simp [step, handleMessage, hmem]
                rw [hstep]
                dsimp only
                exact inv_retire s as t _ _ (Or.inl rfl) hmem h
          · have hstep : step s (Ev.msg ⟨ty, some t, d, m⟩) = (s, [Act.discard (some t)]) := by
              simp [step, handleMessage, hmem]
            rw [hstep]
            dsimp only
            exact inv_extend_same s as [Act.discard (some t)] (fun u => rfl) h
  | timeoutFire t =>
      by_cases hmem : t ∈ s.callbacks
      · have hstep : step s (Ev.timeoutFire t)
            = ({ s with callbacks := s.callbacks.erase t },
               [Act.settle t (Outcome.rejected "Command timeout"),
                Act.retireByTimeout t]) := by
          simp [step, commandTimeout, hmem]
        rw [hstep]
        dsimp only
        exact inv_retire s as t _ _ (Or.inr rfl) hmem h
      · have hstep : step s (Ev.timeoutFire t) = (s, []) := by
          simp [step, commandTimeout, hmem]
        rw [hstep]
        dsimp only
        rw [List.append_nil]
        exact h
  | disconnectEv => exact absurd rfl hne

/-- The invariant holds along any disconnect-free run. -/
theorem inv_runS (es : List Ev) : ∀ (s : SessionState) (as : List Act),
    Ev.disconnectEv ∉ es → InvFull s as →
    InvFull (runS s es).1 (as ++ (runS s es).2) := by
  induction es with
  | nil =>
      intro s as _ h
      simpa [runS] using h
  | cons e es ih =>
      intro s as hnd h
      have hne : e ≠ Ev.disconnectEv := by
        intro hh
        exact hnd (hh ▸ List.mem_cons_self e es)
      have hnd2 : Ev.disconnectEv ∉ es := fun hh => hnd (List.mem_cons_of_mem _ hh)
      have h1 := inv_step s as e hne h
      have h2 := ih (step s e).1 (as ++ (step s e).2) hnd2 h1
      simpa [runS, List.append_assoc] using h2

theorem inv_init : InvFull init [] := by
  refine ⟨?_, ?_, ?_, ?_, ?_, ?_⟩
  · intro t ht
    simp [init] at ht
  · simp [init]
  · intro t
    simp [retireCount]
  · intro t ht
    simp [init] at ht
  · intro t _
    simp [retireCount]
  · intro t h1 h2
    simp [init] at h2
    omega

theorem runS_append (xs ys : List Ev) : ∀ s : SessionState,
    runS s (xs ++ ys)
      = ((runS (runS s xs).1 ys).1, (runS s xs).2 ++ (runS (runS s xs).1 ys).2) := by
  induction xs with
  | nil =>
      intro s
      simp [runS]
  | cons e xs ih =>
      intro s
      simp [runS, ih, List.append_assoc]

/-- C1: along any disconnect-free sequence of events on one session, every tag
is retired from the pending set at most once — never twice, and in particular
never by both a terminal reply and the timeout; and since every accepted
`submit` schedules a timeout timer for its tag, once that timer has fired the
tag has been retired exactly once (by a terminal reply arriving first, or by
the timer itself). -/
theorem tag_retired_exactly_once (tr : List Ev) (t : Nat)
    (hnd : Ev.disconnectEv ∉ tr) :
    retireCount (runS init tr).2 t ≤ 1 ∧
    (∀ xs ys, tr = xs ++ Ev.timeoutFire t :: ys →
      1 ≤ t → t ≤ (runS init xs).1.tagCounter →
      retireCount (runS init tr).2 t = 1) := by
  have hall : InvFull (runS init tr).1 ([] ++ (runS init tr).2) :=
    inv_runS tr init [] hnd inv_init
  rw [List.nil_append] at hall
  refine ⟨hall.retire_le t, ?_⟩
  intro xs ys hsplit h1 h2
  subst hsplit
  have hx : Ev.disconnectEv ∉ xs := fun hh => hnd (List.mem_append.mpr (Or.inl hh))
  have hpre : InvFull (runS init xs).1 ([] ++ (runS init xs).2) :=
    inv_runS xs init [] hx inv_init
  rw [List.nil_append] at hpre
  have hle : retireCount (runS init (xs ++ Ev.timeoutFire t :: ys)).2 t ≤ 1 :=
    hall.retire_le t
  have hdec : (runS init (xs ++ Ev.timeoutFire t :: ys)).2
      = (runS init xs).2
        ++ ((step (runS init xs).1 (Ev.timeoutFire t)).2
            ++ (runS (step (runS init xs).1 (Ev.timeoutFire t)).1 ys).2) := by
    rw [runS_append xs (Ev.timeoutFire t :: ys) init]
    simp [runS]
  rw [hdec] at hle ⊢
  rw [retireCount_append, retireCount_append] at hle ⊢
  rcases hpre.alloc t h1 h2 with hm | hr
  · have hstep : step (runS init xs).1 (Ev.timeoutFire t)
        = ({ (runS init xs).1 with callbacks := (runS init xs).1.callbacks.erase t },
           [Act.settle t (Outcome.rejected "Command timeout"),
            Act.retireByTimeout t]) := by
      simp [step, commandTimeout, hm]
    have hone : retireCount (step (runS init xs).1 (Ev.timeoutFire t)).2 t = 1 := by
      rw [hstep]
      dsimp only
      rw [retireCount_settle_retire t t (Outcome.rejected "Command timeout")
        (Act.retireByTimeout t) (Or.inr rfl)]
      simp
    omega
  · omega

/-- C1 witness: the tag allocated by the one accepted submit is retired exactly
once on a concrete trace whose timer fires and whose late reply arrives after
the timeout. -/
theorem tag_retired_exactly_once_w :
    retireCount (runS init ([Ev.loginOk, Ev.submit]
      ++ Ev.timeoutFire 1 :: [Ev.msg ⟨RKind.done, some 1, none, none⟩])).2 1 = 1 :=
  (tag_retired_exactly_once
      ([Ev.loginOk, Ev.submit]
        ++ Ev.timeoutFire 1 :: [Ev.msg ⟨RKind.done, some 1, none, none⟩])
      1 (by decide)).2
    [Ev.loginOk, Ev.submit] [Ev.msg ⟨RKind.done, some 1, none, none⟩] rfl
    (by decide) (by decide)

/-- C2 counterexample: on `tr0` the data reply's payload "A" is not
accumulated — the command resolves with the `done` reply itself (payload "B"),
not with the accumulated data list `["A"]` the claim predicts. -/
theorem data_accumulation_cex :
    settlesOf (runS init tr0).2 1
      = [Outcome.resolved ⟨RKind.done, some 1, some (Val.s "B"), none⟩] ∧
    settlesOf (runS init tr0).2 1
      ≠ [Outcome.resolved ⟨RKind.done, some 1, some (Val.arr ["A"]), none⟩] := by
  constructor
  · decide
  · decide

/-- C2 (amended): a `data` reply for a pending tag is received and ignored —
the registered callback does nothing for kind `data`, no accumulator exists,
and the state is unchanged — and the subsequent `done` reply resolves the
operation with the `done` reply itself (its own payload only); the typed
getters then wrap a non-array payload into a one-element list. -/
theorem data_replies_ignored (xs : List Ev) (t : Nat) (p q : Option Val)
    (m1 m2 : Option String)
    (hp : t ∈ (runS init xs).1.callbacks) :
    settlesOf (runS init (xs ++ [Ev.msg ⟨RKind.data, some t, p, m1⟩,
        Ev.msg ⟨RKind.done, some t, q, m2⟩])).2 t
      = settlesOf (runS init xs).2 t
        ++ [Outcome.resolved ⟨RKind.done, some t, q, m2⟩] ∧
    step (runS init xs).1 (Ev.msg ⟨RKind.data, some t, p, m1⟩)
      = ((runS init xs).1, []) := by
  have hdata : step (runS init xs).1 (Ev.msg ⟨RKind.data, some t, p, m1⟩)
      = ((runS init xs).1, []) := by
    simp [step, handleMessage, hp]
  have hdone : step (runS init xs).1 (Ev.msg ⟨RKind.done, some t, q, m2⟩)
      = ({ (runS init xs).1 with callbacks := (runS init xs).1.callbacks.erase t },
         [Act.settle t (Outcome.resolved ⟨RKind.done, some t, q, m2⟩),
          Act.retireByReply t]) := by
    simp [step, handleMessage, hp]
  refine ⟨?_, hdata⟩
  rw [runS_append xs [Ev.msg ⟨RKind.data, some t, p, m1⟩,
    Ev.msg ⟨RKind.done, some t, q, m2⟩] init]
  dsimp only
  rw [settlesOf_append]
  simp only [runS, hdata, hdone]
  simp [settlesOf]

/-- C2 witness for the amended statement, at the concrete prefix
`[loginOk, submit]` and payloads "A"/"B". -/
theorem data_replies_ignored_w :
    settlesOf (runS init ([Ev.loginOk, Ev.submit]
        ++ [Ev.msg ⟨RKind.data, some 1, some (Val.s "A"), none⟩,
            Ev.msg ⟨RKind.done, some 1, some (Val.s "B"), none⟩])).2 1
      = settlesOf (runS init [Ev.loginOk, Ev.submit]).2 1
        ++ [Outcome.resolved ⟨RKind.done, some 1, some (Val.s "B"), none⟩] :=
  (data_replies_ignored [Ev.loginOk, Ev.submit] 1
      (some (Val.s "A")) (some (Val.s "B")) none none (by decide)).1

/-- C4: a reply whose tag matches no registered callback — no tag at all, a
never-allocated tag, or a tag already retired (for example by its timeout) —
is discarded: the state is unchanged and no pending or completed command's
outcome is touched (the only emitted action is the discard). -/
theorem unknown_tag_discarded (s : SessionState) (r : Reply)
    (h : tagUnknown s r.tag) :
    step s (Ev.msg r) = (s, [Act.discard r.tag]) := by
  rcases r with ⟨ty, tg, d, m⟩
  cases tg with
  | none => rfl
  | some t =>
      have hh : t ∉ s.callbacks := h
      simp [step, handleMessage, hh]

/-- C4 witness: after tag 1's timeout has fired, a late `done` reply for tag 1
is discarded and changes nothing — the scenario of the spec. -/
theorem unknown_tag_discarded_w :
    step (runS init [Ev.loginOk, Ev.submit, Ev.timeoutFire 1]).1
        (Ev.msg ⟨RKind.done, some 1, some (Val.s "late"), none⟩)
      = ((runS init [Ev.loginOk, Ev.submit, Ev.timeoutFire 1]).1,
         [Act.discard (some 1)]) :=
  unknown_tag_discarded (runS init [Ev.loginOk, Ev.submit, Ev.timeoutFire 1]).1
    ⟨RKind.done, some 1, some (Val.s "late"), none⟩ (by decide)

/-- C5 counterexample: with one pending command (tag 1), `disconnect()` empties
the pending set but never settles the command — no rejection with
SessionClosed or anything else is delivered, and even the command's own
timeout, firing later, finds the tag gone and rejects nothing: the caller's
promise is left pending forever. -/
theorem disconnect_no_sessionclosed_cex :
    (runS init [Ev.loginOk, Ev.submit]).1.callbacks = [1] ∧
    (runS init [Ev.loginOk, Ev.submit, Ev.disconnectEv]).1.callbacks = [] ∧
    settlesOf (runS init [Ev.loginOk, Ev.submit, Ev.disconnectEv]).2 1 = [] ∧
    settlesOf (runS init [Ev.loginOk, Ev.submit, Ev.disconnectEv,
        Ev.timeoutFire 1]).2 1 = [] := by
  refine ⟨?_, ?_, ?_, ?_⟩ <;> decide

/-- C5 (amended): `disconnect()` closes the transport, clears the `connected`
flag, empties the pending set and is idempotent — but the still-pending
commands are dropped without being settled: no rejection is emitted at
disconnect time, and any of their timeouts firing afterwards finds the tag
absent and emits nothing either. -/
theorem disconnect_clears_without_reject (s : SessionState) :
    (step s Ev.disconnectEv).1.callbacks = [] ∧
    (step s Ev.disconnectEv).1.connected = false ∧
    (step s Ev.disconnectEv).1.hasWs = false ∧
    (step s Ev.disconnectEv).2 = [Act.cleared s.callbacks] ∧
    (∀ t : Nat, settlesOf (step s Ev.disconnectEv).2 t = []) ∧
    step (step s Ev.disconnectEv).1 Ev.disconnectEv
      = ((step s Ev.disconnectEv).1, [Act.cleared []]) ∧
    (∀ t : Nat, step (step s Ev.disconnectEv).1 (Ev.timeoutFire t)
      = ((step s Ev.disconnectEv).1, [])) := by
  refine ⟨rfl, rfl, rfl, rfl, ?_, rfl, ?_⟩
  · intro t
    rfl
  · intro t
    simp [step, commandTimeout, disconnect]

/-- C8: a `trap` or `fatal` reply for a pending tag rejects the operation with
the router's own message text when the reply provides one (and the fixed text
`'Command failed'` otherwise, per `response.message || 'Command failed'`), and
retires the tag: the callback entry is erased, so the tag is no longer
pending. -/
theorem trap_fatal_reject_retire (s : SessionState) (r : Reply) (t : Nat)
    (ht : r.tag = some t) (hp : t ∈ s.callbacks)
    (hk : r.type = RKind.trap ∨ r.type = RKind.fatal)
    (hnd : s.callbacks.Nodup) :
    step s (Ev.msg r)
      = ({ s with callbacks := s.callbacks.erase t },
         [Act.settle t (Outcome.rejected (r.message.getD "Command failed")),
          Act.retireByReply t]) ∧
    t ∉ (step s (Ev.msg r)).1.callbacks := by
  rcases r with ⟨ty, tg, d, m⟩
  cases ht
  have hstep : step s (Ev.msg ⟨ty, some t, d, m⟩)
      = ({ s with callbacks := s.callbacks.erase t },
         [Act.settle t (Outcome.rejected (m.getD "Command failed")),
          Act.retireByReply t]) := by
    rcases hk with hty | hty <;> cases hty <;> simp [step, handleMessage, hp]
  refine ⟨hstep, ?_⟩
  rw [hstep]
  exact hnd.not_mem_erase

/-- C8 witness: a concrete trap reply carrying the router's message rejects
with exactly that message and retires the tag. -/
theorem trap_fatal_reject_retire_w :
    step { hasWs := true, connected := true, tagCounter := 1, callbacks := [1] }
        (Ev.msg ⟨RKind.trap, some 1, none, some "no such item"⟩)
      = ({ hasWs := true, connected := true, tagCounter := 1, callbacks := [] },
         [Act.settle 1 (Outcome.rejected "no such item"), Act.retireByReply 1]) ∧
    1 ∉ (step { hasWs := true, connected := true, tagCounter := 1, callbacks := [1] }
        (Ev.msg ⟨RKind.trap, some 1, none, some "no such item"⟩)).1.callbacks :=
  trap_fatal_reject_retire
    { hasWs := true, connected := true, tagCounter := 1, callbacks := [1] }
    ⟨RKind.trap, some 1, none, some "no such item"⟩ 1 rfl (by decide)
    (Or.inl rfl) (by decide)

/-- C3 counterexample: on a reachable router (transport open succeeds) whose
login reply would be a trap (wrong credentials), the session connect resolves
`false`, and the Connection Manager — far from short-circuiting — attempts and
uses the stateless HTTP fallback. -/
theorem auth_trap_no_short_circuit_cex :
    (managerConnect (wsApiConnect OpenResult.opened RKind.trap)
        (Except.error "probe") HttpOutcome.resolvedOk
        (Except.ok (Val.s "sysinfo"))).httpAttempted = true ∧
    (managerConnect (wsApiConnect OpenResult.opened RKind.trap)
        (Except.error "probe") HttpOutcome.resolvedOk
        (Except.ok (Val.s "sysinfo"))).result
      = MgrResult.ok "HTTP REST API" (Val.s "sysinfo") := by
  constructor
  · rfl
  · rfl

/-- C3 (amended): when the transport open succeeds, the session connect
resolves `false` — a distinct outcome from the rejected `'Connection
timeout'` of an unreachable router, but not an AuthFailed: the login command
is never even sent, because `sendCommand`'s guard sees `connected` still
false during the handshake, so the same `false` results whatever the router
would reply — and the Connection Manager treats the `false` like any failed
attempt and proceeds to the stateless HTTP fallback. -/
theorem auth_trap_behavior :
    wsApiConnect OpenResult.opened RKind.trap = WsOutcome.resolvedB false ∧
    (∀ k : RKind, wsApiConnect OpenResult.opened k = WsOutcome.resolvedB false) ∧
    wsApiConnect OpenResult.openHang RKind.trap
      = WsOutcome.rejectedE "Connection timeout" ∧
    WsOutcome.resolvedB false ≠ WsOutcome.rejectedE "Connection timeout" ∧
    (∀ (http : HttpOutcome) (hp : Except String Val),
      (managerConnect (wsApiConnect OpenResult.opened RKind.trap)
          (Except.error "probe") http hp).httpAttempted = true) := by
  refine ⟨rfl, fun k => rfl, rfl, by decide, ?_⟩
  intro http hp
  cases http <;> cases hp <;> rfl

/-- C6: the Connection Manager tries the WebSocket method first and the
stateless HTTP method only as fallback: the HTTP method is untouched exactly
when the WebSocket connect resolved `true` and its systemResource probe
succeeded, in which case the result is `{success, method: 'WebSocket API'}`
with that probe's payload; whenever the fallback is reached and the HTTP
connect and its probe succeed, the result is `{success, method: 'HTTP REST
API'}` with the HTTP probe's payload. -/
theorem connect_priority_order (ws : WsOutcome) (wsProbe : Except String Val)
    (http : HttpOutcome) (httpProbe : Except String Val) :
    ((managerConnect ws wsProbe http httpProbe).httpAttempted = false
        ↔ ws = WsOutcome.resolvedB true ∧ exceptOk wsProbe = true) ∧
    (∀ i : Val, ws = WsOutcome.resolvedB true → wsProbe = Except.ok i →
        (managerConnect ws wsProbe http httpProbe).result
          = MgrResult.ok "WebSocket API" i) ∧
    (∀ i : Val, (managerConnect ws wsProbe http httpProbe).httpAttempted = true →
        http = HttpOutcome.resolvedOk → httpProbe = Except.ok i →
        (managerConnect ws wsProbe http httpProbe).result
          = MgrResult.ok "HTTP REST API" i) := by
  rcases ws with b | e
  · cases b <;> rcases wsProbe with i | e1 <;> rcases http with _ | e2 <;>
      rcases httpProbe with i2 | e3 <;>
      simp [managerConnect, httpPhase, exceptOk]
  · rcases wsProbe with i | e1 <;> rcases http with _ | e2 <;>
      rcases httpProbe with i2 | e3 <;>
      simp [managerConnect, httpPhase, exceptOk]

/-- C6 witness: a successful WebSocket attempt with a successful probe returns
success over 'WebSocket API' with the probe's payload. -/
theorem connect_priority_order_w :
    (managerConnect (WsOutcome.resolvedB true) (Except.ok (Val.s "board"))
        HttpOutcome.resolvedOk (Except.ok (Val.s "other"))).result
      = MgrResult.ok "WebSocket API" (Val.s "board") :=
  (connect_priority_order (WsOutcome.resolvedB true) (Except.ok (Val.s "board"))
      HttpOutcome.resolvedOk (Except.ok (Val.s "other"))).2.1
    (Val.s "board") rfl rfl

/-- C7 (code bug): whenever the HTTP phase fails — which is exactly the
all-methods-fail situation, since control only reaches it after the WebSocket
attempt failed — the `catch (httpError)` return statement interpolates
`wsError`, a name bound only inside the earlier `catch (wsError)` block, so
instead of returning a `{success: false, error}` record aggregating one error
entry per method the call dies with a ReferenceError (and TypeScript rejects
the file outright, TS2304); in particular the intended aggregate message is
never produced. -/
theorem both_fail_no_aggregate :
    (∀ e1 e2 : String,
      (managerConnect (WsOutcome.rejectedE e1) (Except.error "probe")
          (HttpOutcome.rejectedE e2) (Except.error "probe")).result
        = MgrResult.crash "ReferenceError: wsError is not defined") ∧
    (managerConnect (WsOutcome.rejectedE "WebSocket connection failed")
        (Except.error "probe")
        (HttpOutcome.rejectedE "Connection failed: TypeError: Failed to fetch")
        (Except.error "probe")).result
      ≠ MgrResult.err "Both WebSocket and HTTP API connections failed. WebSocket: WebSocket connection failed. HTTP: Connection failed: TypeError: Failed to fetch" := by
  constructor
  · intro e1 e2
    rfl
  · intro h
    exact MgrResult.noConfusion h

/-- C7 witness instance at concrete error strings. -/
theorem both_fail_no_aggregate_w :
    (managerConnect (WsOutcome.rejectedE "WebSocket connection failed")
        (Except.error "probe")
        (HttpOutcome.rejectedE "Connection failed: TypeError: Failed to fetch")
        (Except.error "probe")).result
      = MgrResult.crash "ReferenceError: wsError is not defined" :=
  both_fail_no_aggregate.1 "WebSocket connection failed"
    "Connection failed: TypeError: Failed to fetch"

/-- The manager invariant: 'http' is only ever selected by a successful HTTP
connect, so whenever `currentApi = 'http'` the (stateless) HTTP session has
authenticated. -/
theorem mgrInv_run (es : List MEv) : ∀ s : MgrState,
    (s.currentApi = some ApiSel.httpSel → s.httpAuthOk = true) →
    ((es.foldl stepM s).currentApi = some ApiSel.httpSel
      → (es.foldl stepM s).httpAuthOk = true) := by
  induction es with
  | nil =>
      intro s h
      exact h
  | cons e es ih =>
      intro s h
      refine ih (stepM s e) ?_
      cases e with
      | mgrWsSuccess =>
          intro hc
          exact absurd hc (by simp [stepM])
      | mgrWsFail =>
          intro hc
          exact h (by simpa [stepM] using hc)
      | mgrHttpSuccess =>
          intro _
          simp [stepM]
      | wsSocketClosed =>
          intro hc
          exact h (by simpa [stepM] using hc)
      | mgrDisconnect =>
          intro hc
          rcases hs : s.currentApi with _ | sel
          · simp [stepM, hs] at hc
          · cases sel <;> simp [stepM, hs] at hc

/-- C9: in every reachable state of the Connection Manager, `isConnected()`
returns exactly the active Session's authentication state: the ws session's
`connected` flag when 'ws' is current, the (once-authenticated, stateless)
HTTP session's state when 'http' is current, and false when no method is
selected. -/
theorem isConnected_delegates (es : List MEv) :
    isConnected (runM es) = specActiveSessionAuth (runM es) := by
  have hinv : (runM es).currentApi = some ApiSel.httpSel
      → (runM es).httpAuthOk = true := by
    refine mgrInv_run es initM ?_
    intro h
    exact absurd h (by simp [initM])
  unfold isConnected specActiveSessionAuth
  rcases hc : (runM es).currentApi with _ | sel
  · rfl
  · cases sel
    · rfl
    · rw [hinv hc]

/-- C10: the three mutating wrappers return `true` exactly when the underlying
`sendCommand` resolves and `false` on every failure (done/trap/fatal/timeout/
not-connected alike), never letting the rejection or its message escape: the
result is a plain Bool, identical for any two failure messages. -/
theorem mutators_return_bool (send : RouterOSCommand → Except String Reply)
    (username password profile id : String) :
    (addHotspotUser send username password profile
        = exceptOk (send (addHotspotUserCmd username password profile))) ∧
    (removeHotspotUser send id = exceptOk (send (removeHotspotUserCmd id))) ∧
    (disconnectActiveUser send id
        = exceptOk (send (disconnectActiveUserCmd id))) ∧
    (∀ e1 e2 : String,
      addHotspotUser (fun _ => Except.error e1) username password profile
        = addHotspotUser (fun _ => Except.error e2) username password profile) := by
  refine ⟨?_, ?_, ?_, fun e1 e2 => rfl⟩
  · cases h : send (addHotspotUserCmd username password profile) <;>
      simp [addHotspotUser, exceptOk, h]
  · cases h : send (removeHotspotUserCmd id) <;>
      simp [removeHotspotUser, exceptOk, h]
  · cases h : send (disconnectActiveUserCmd id) <;>
      simp [disconnectActiveUser, exceptOk, h]

end MikrotikApi

